import Mathlib

/-!
Shallow embedding of `scripts/demo/mcp-demo-workflow.py` (LlamaGate MCP demo).

The script is sequential glue code: a connectivity check, a tool-discovery
query, and four document-processing workflows, each returning a boolean,
followed by a summary and a process exit code.

Modelling conventions:
* `FS` is the state of the workspace directory (`WORKSPACE_DIR`): whether the
  directory exists and the names of the files it contains, in directory
  iteration order (the order `Path.glob` enumerates entries).
* The chat-completion endpoint is an oracle `Api : FS → Except PyErr (Resp × FS)`:
  a call either raises an exception (`Except.error`) or returns a response
  together with the filesystem state after the call (the server's MCP tools
  may create files, e.g. `summary.txt`).  On an error the filesystem is
  modelled as unchanged.
* Python filesystem calls `Path.mkdir`, `Path.glob` (forcing the iterator via
  `list(...)`), `Path.write_text` and `Path.stat` can raise `OSError`; the
  `OsFaults` oracle injects such failures (`none` = the call succeeds).
  `Path.exists` swallows `OSError` and returns a boolean, so it is total.
* Each function records a trace of filesystem/API events (`Event`) and of the
  decision-relevant printed diagnostics (`Msg`).  Purely decorative prints
  (section banners, separator lines, step headers) are not modelled.
* A Python function body that raises is modelled by `Except.error` in
  `WfRun.result`; a normal `return b` is `Except.ok b`.
-/

namespace Demo

/-- A Python exception value (`Exception as e`). -/
structure PyErr where
  msg : String
deriving DecidableEq

/-- A chat-completion response: `response.choices[0].message.content` and the
names of `response.choices[0].message.tool_calls` (empty when absent). -/
structure Resp where
  content : String
  toolCalls : List String
deriving DecidableEq

/-- State of the workspace directory: whether it exists, and the file names
inside it in directory iteration order. -/
structure FS where
  workspaceExists : Bool
  files : List String
deriving DecidableEq

/-- Filesystem / network events a run performs, in order. -/
inductive Event where
  | checkDirExists
  | mkdirWorkspace
  | globFiles (pattern : String)
  | checkExists (name : String)
  | writeFile (name : String)
  | statFile (name : String)
  | apiCall
deriving DecidableEq

/-- Decision-relevant printed diagnostics. -/
inductive Msg where
  | connOk
  | connFailed (e : PyErr)
  | toolsListing (content : String)
  | toolsFailed (e : PyErr)
  | continuingAnyway
  | workspaceNotFound
  | creatingWorkspace
  | noPdfFound
  | addPdfGuidance
  | foundPdf (name : String)
  | pdfSummary (content : String)
  | toolsUsed (names : List String)
  | failedProcessPdf (e : PyErr)
  | creatingSample
  | processingResult (content : String)
  | summaryCreated
  | summarySize
  | summaryMissing
  | failedProcessDoc (e : PyErr)
  | listingResult (content : String)
  | failedListProcess (e : PyErr)
  | noTxtFound
  | needSourceDoc
  | conversionResult (content : String)
  | convertedCreated (target : String)
  | convertedMissing (target : String)
  | failedConvert (e : PyErr)
  | unexpectedError (e : PyErr)
  | wfStatus (name : String) (ok : Bool)
  | totals (passed : Nat) (total : Nat)
  | allPassed
  | someFailed (n : Nat)
deriving DecidableEq

/-- Injected `OSError` failures for the Python filesystem calls a workflow
makes (`mkdir`, `list(glob(...))`, `write_text`, `stat`); `none` means the
call succeeds. -/
structure OsFaults where
  mkdirFault : Option PyErr
  globFault : Option PyErr
  writeFault : Option PyErr
  statFault : Option PyErr
deriving DecidableEq

/-- All filesystem calls succeed (a normally functioning OS). -/
def noFaults : OsFaults := ⟨none, none, none, none⟩

/-- The chat-completion endpoint as an oracle: given the filesystem state at
call time, either raise or return a response and the state afterwards. -/
abbrev Api := FS → Except PyErr (Resp × FS)

/-- Semantics of `fnmatch` for the pattern `*<suffix>` against a file name: `*` matches any
(possibly empty) sequence, so the pattern holds iff `suffix` is a suffix of
the name. -/
def globMatches (suffix : String) (name : String) : Bool :=
  suffix.toList.isSuffixOf name.toList

/-- Evaluation of `list(workspace.glob("*" + suffix))`: the files whose names match, in
directory iteration order. -/
def globList (fs : FS) (suffix : String) : List String :=
  fs.files.filter (globMatches suffix)

/-- Index of the last `.` in a list of characters, if any. -/
def lastDotIdx : List Char → Option Nat
  | [] => none
  | c :: cs =>
    match lastDotIdx cs with
    | some i => some (i + 1)
    | none => if c = '.' then some 0 else none

/-- Python `PurePath.stem`: the file name without its last suffix.  The suffix is
nonempty only when the last dot is neither the first nor the last character
(so `.txt` and `name.` have no suffix). -/
def stem (name : String) : String :=
  let cs := name.toList
  match lastDotIdx cs with
  | some i => if 0 < i ∧ i + 1 < cs.length then String.mk (cs.take i) else name
  | none => name

/-- Result of one workflow function: `result` is `Except.error e` when the
function raised (propagating the exception), `Except.ok b` when it returned
`b`; `fs` is the filesystem state when the function finished (or raised);
`events` and `msgs` are the traces. -/
structure WfRun where
  result : Except PyErr Bool
  fs : FS
  events : List Event
  msgs : List Msg

/-- Result of `check_llamagate_connection` / `list_available_tools`. -/
structure CallRun where
  ok : Bool
  fs : FS
  events : List Event
  msgs : List Msg

/-- Function `check_llamagate_connection` (lines 46-60): a minimal chat request;
`True` iff no exception was raised. -/
def check_llamagate_connection (api : Api) (fs : FS) : CallRun :=
  match api fs with
  | Except.ok (_, fs1) => ⟨true, fs1, [Event.apiCall], [Msg.connOk]⟩
  | Except.error e => ⟨false, fs, [Event.apiCall], [Msg.connFailed e]⟩

/-- Function `list_available_tools` (lines 63-81): a tool-discovery chat request;
`True` iff no exception was raised. -/
def list_available_tools (api : Api) (fs : FS) : CallRun :=
  match api fs with
  | Except.ok (resp, fs1) => ⟨true, fs1, [Event.apiCall], [Msg.toolsListing resp.content]⟩
  | Except.error e => ⟨false, fs, [Event.apiCall], [Msg.toolsFailed e]⟩

/-- Body of `workflow_1_read_pdf` after the workspace prologue
(lines 96-131): glob for PDFs, fail (non-fatally) when none, otherwise the
guarded API call. -/
def workflow_1_body (api : Api) (faults : OsFaults) (fs : FS) : WfRun :=
  match faults.globFault with
  | some e => ⟨Except.error e, fs, [Event.globFiles ".pdf"], []⟩
  | none =>
    match globList fs ".pdf" with
    | [] =>
      ⟨Except.ok false, fs, [Event.globFiles ".pdf"], [Msg.noPdfFound, Msg.addPdfGuidance]⟩
    | p :: _ =>
      match api fs with
      | Except.error e =>
        ⟨Except.ok false, fs, [Event.globFiles ".pdf", Event.apiCall],
         [Msg.foundPdf p, Msg.failedProcessPdf e]⟩
      | Except.ok (resp, fs1) =>
        ⟨Except.ok true, fs1, [Event.globFiles ".pdf", Event.apiCall],
         Msg.foundPdf p :: Msg.pdfSummary resp.content ::
           (if resp.toolCalls.isEmpty then [] else [Msg.toolsUsed resp.toolCalls])⟩

/-- Function `workflow_1_read_pdf` (lines 84-131).  The workspace existence check and
`mkdir(parents=True, exist_ok=True)` (lines 89-93) are outside the `try`
block, so a `mkdir` failure propagates. -/
def workflow_1_read_pdf (api : Api) (faults : OsFaults) (fs0 : FS) : WfRun :=
  if fs0.workspaceExists then
    let r := workflow_1_body api faults fs0
    ⟨r.result, r.fs, Event.checkDirExists :: r.events, r.msgs⟩
  else
    match faults.mkdirFault with
    | some e =>
      ⟨Except.error e, fs0, [Event.checkDirExists],
       [Msg.workspaceNotFound, Msg.creatingWorkspace]⟩
    | none =>
      let r := workflow_1_body api faults ⟨true, fs0.files⟩
      ⟨r.result, r.fs, Event.checkDirExists :: Event.mkdirWorkspace :: r.events,
       Msg.workspaceNotFound :: Msg.creatingWorkspace :: r.msgs⟩

/-- The silent workspace prologue shared by workflows 2, 3 and 4
(e.g. lines 138-140): `if not workspace.exists(): workspace.mkdir(...)`.
Outside any `try`, so a `mkdir` failure propagates. -/
def withWorkspace (faults : OsFaults) (fs0 : FS) (body : FS → WfRun) : WfRun :=
  if fs0.workspaceExists then
    let r := body fs0
    ⟨r.result, r.fs, Event.checkDirExists :: r.events, r.msgs⟩
  else
    match faults.mkdirFault with
    | some e => ⟨Except.error e, fs0, [Event.checkDirExists], []⟩
    | none =>
      let r := body ⟨true, fs0.files⟩
      ⟨r.result, r.fs, Event.checkDirExists :: Event.mkdirWorkspace :: r.events, r.msgs⟩

/-- The guarded part of `workflow_2_multi_step_processing` (lines 164-203):
the API call, then the `summary.txt` existence check; the `stat()` size print
is still inside the `try`, so a `stat` failure is caught and yields
`return False`. -/
def workflow_2_api_part (api : Api) (faults : OsFaults) (fs : FS)
    (ev : List Event) (ms : List Msg) : WfRun :=
  match api fs with
  | Except.error e =>
    ⟨Except.ok false, fs, ev ++ [Event.apiCall], ms ++ [Msg.failedProcessDoc e]⟩
  | Except.ok (resp, fs1) =>
    if "summary.txt" ∈ fs1.files then
      match faults.statFault with
      | some e =>
        ⟨Except.ok false, fs1, ev ++ [Event.apiCall, Event.checkExists "summary.txt"],
         ms ++ [Msg.processingResult resp.content, Msg.summaryCreated, Msg.failedProcessDoc e]⟩
      | none =>
        ⟨Except.ok true, fs1,
         ev ++ [Event.apiCall, Event.checkExists "summary.txt", Event.statFile "summary.txt"],
         ms ++ [Msg.processingResult resp.content, Msg.summaryCreated, Msg.summarySize]⟩
    else
      ⟨Except.ok true, fs1, ev ++ [Event.apiCall, Event.checkExists "summary.txt"],
       ms ++ [Msg.processingResult resp.content, Msg.summaryMissing]⟩

/-- Body of `workflow_2_multi_step_processing` after the workspace prologue
(lines 143-203): ensure `sample.txt` exists (`write_text` is outside the
`try`, so a write failure propagates), then the guarded API part. -/
def workflow_2_body (api : Api) (faults : OsFaults) (fs : FS) : WfRun :=
  if "sample.txt" ∈ fs.files then
    workflow_2_api_part api faults fs [Event.checkExists "sample.txt"] []
  else
    match faults.writeFault with
    | some e =>
      ⟨Except.error e, fs, [Event.checkExists "sample.txt", Event.writeFile "sample.txt"],
       [Msg.creatingSample]⟩
    | none =>
      workflow_2_api_part api faults ⟨fs.workspaceExists, fs.files ++ ["sample.txt"]⟩
        [Event.checkExists "sample.txt", Event.writeFile "sample.txt"] [Msg.creatingSample]

/-- Function `workflow_2_multi_step_processing` (lines 134-203). -/
def workflow_2_multi_step_processing (api : Api) (faults : OsFaults) (fs0 : FS) : WfRun :=
  withWorkspace faults fs0 (workflow_2_body api faults)

/-- Body of `workflow_3_list_and_process` after the workspace prologue
(lines 214-236): a single guarded API call, no output verification. -/
def workflow_3_body (api : Api) (fs : FS) : WfRun :=
  match api fs with
  | Except.error e => ⟨Except.ok false, fs, [Event.apiCall], [Msg.failedListProcess e]⟩
  | Except.ok (resp, fs1) =>
    ⟨Except.ok true, fs1, [Event.apiCall], [Msg.listingResult resp.content]⟩

/-- Function `workflow_3_list_and_process` (lines 206-236). -/
def workflow_3_list_and_process (api : Api) (faults : OsFaults) (fs0 : FS) : WfRun :=
  withWorkspace faults fs0 (workflow_3_body api)

/-- Body of `workflow_4_document_conversion` after the workspace prologue
(lines 248-284): glob for `.txt` files, fail (non-fatally) when none,
otherwise derive `<stem>_converted.md` and make the guarded API call; the
post-call existence check only changes the printed message. -/
def workflow_4_body (api : Api) (faults : OsFaults) (fs : FS) : WfRun :=
  match faults.globFault with
  | some e => ⟨Except.error e, fs, [Event.globFiles ".txt"], []⟩
  | none =>
    match globList fs ".txt" with
    | [] =>
      ⟨Except.ok false, fs, [Event.globFiles ".txt"], [Msg.noTxtFound, Msg.needSourceDoc]⟩
    | t :: _ =>
      let target := stem t ++ "_converted.md"
      match api fs with
      | Except.error e =>
        ⟨Except.ok false, fs, [Event.globFiles ".txt", Event.apiCall], [Msg.failedConvert e]⟩
      | Except.ok (resp, fs1) =>
        if target ∈ fs1.files then
          ⟨Except.ok true, fs1,
           [Event.globFiles ".txt", Event.apiCall, Event.checkExists target],
           [Msg.conversionResult resp.content, Msg.convertedCreated target]⟩
        else
          ⟨Except.ok true, fs1,
           [Event.globFiles ".txt", Event.apiCall, Event.checkExists target],
           [Msg.conversionResult resp.content, Msg.convertedMissing target]⟩

/-- Function `workflow_4_document_conversion` (lines 239-284). -/
def workflow_4_document_conversion (api : Api) (faults : OsFaults) (fs0 : FS) : WfRun :=
  withWorkspace faults fs0 (workflow_4_body api faults)

/-- The workflow names recorded in `results` (lines 309-312). -/
def wfName1 : String := "Workflow 1: Read PDF"

def wfName2 : String := "Workflow 2: Multi-Step Processing"

def wfName3 : String := "Workflow 3: List and Process"

def wfName4 : String := "Workflow 4: Document Conversion"

/-- The summary block printed by `main` (lines 315-328). -/
def summaryMsgs (results : List (String × Bool)) : List Msg :=
  let passed := (results.filter (fun p => p.2)).length
  results.map (fun p => Msg.wfStatus p.1 p.2) ++ [Msg.totals passed results.length] ++
    (if passed = results.length then [Msg.allPassed]
     else [Msg.someFailed (results.length - passed)])

/-- Outcome of one whole process run: the process exit code, the recorded
`results` list, and the traces.  A `sys.exit(1)` on connectivity failure and
an exception propagating out of a workflow (caught by the top-level handler,
lines 332-342) both end the process with exit code 1. -/
structure MainRun where
  exitCode : Nat
  results : List (String × Bool)
  events : List Event
  msgs : List Msg

/-- Function `main` (lines 287-329) together with the top-level handler
(lines 332-342): connectivity check (fatal on failure), tool discovery
(non-fatal on failure), the four workflows in order threading the filesystem
state, then the summary and the exit code `0` iff every recorded result is
a pass. -/
def main (apiConn apiTools api1 api2 api3 api4 : Api)
    (f1 f2 f3 f4 : OsFaults) (fs0 : FS) : MainRun :=
  let c := check_llamagate_connection apiConn fs0
  if c.ok = false then
    ⟨1, [], c.events, c.msgs⟩
  else
    let t := list_available_tools apiTools c.fs
    let msT := if t.ok then t.msgs else t.msgs ++ [Msg.continuingAnyway]
    let r1 := workflow_1_read_pdf api1 f1 t.fs
    match r1.result with
    | Except.error e =>
      ⟨1, [], c.events ++ t.events ++ r1.events,
       c.msgs ++ msT ++ r1.msgs ++ [Msg.unexpectedError e]⟩
    | Except.ok b1 =>
      let r2 := workflow_2_multi_step_processing api2 f2 r1.fs
      match r2.result with
      | Except.error e =>
        ⟨1, [(wfName1, b1)], c.events ++ t.events ++ r1.events ++ r2.events,
         c.msgs ++ msT ++ r1.msgs ++ r2.msgs ++ [Msg.unexpectedError e]⟩
      | Except.ok b2 =>
        let r3 := workflow_3_list_and_process api3 f3 r2.fs
        match r3.result with
        | Except.error e =>
          ⟨1, [(wfName1, b1), (wfName2, b2)],
           c.events ++ t.events ++ r1.events ++ r2.events ++ r3.events,
           c.msgs ++ msT ++ r1.msgs ++ r2.msgs ++ r3.msgs ++ [Msg.unexpectedError e]⟩
        | Except.ok b3 =>
          let r4 := workflow_4_document_conversion api4 f4 r3.fs
          match r4.result with
          | Except.error e =>
            ⟨1, [(wfName1, b1), (wfName2, b2), (wfName3, b3)],
             c.events ++ t.events ++ r1.events ++ r2.events ++ r3.events ++ r4.events,
             c.msgs ++ msT ++ r1.msgs ++ r2.msgs ++ r3.msgs ++ r4.msgs ++ [Msg.unexpectedError e]⟩
          | Except.ok b4 =>
            let results := [(wfName1, b1), (wfName2, b2), (wfName3, b3), (wfName4, b4)]
            ⟨if (results.filter (fun p => p.2)).length = results.length then 0 else 1,
             results,
             c.events ++ t.events ++ r1.events ++ r2.events ++ r3.events ++ r4.events,
             c.msgs ++ msT ++ r1.msgs ++ r2.msgs ++ r3.msgs ++ r4.msgs ++ summaryMsgs results⟩

/-- An event that reads, writes, stats or enumerates files inside the
workspace directory (the directory existence check itself and the network
call are not file accesses). -/
def fileAccess : Event → Bool
  | Event.globFiles _ => true
  | Event.checkExists _ => true
  | Event.writeFile _ => true
  | Event.statFile _ => true
  | _ => false

/-- Scanning an event trace in order: no file access happens strictly before
the first `mkdirWorkspace` (true vacuously when no file access occurs). -/
def mkdirBeforeAccess : List Event → Bool
  | [] => true
  | e :: rest =>
    if e = Event.mkdirWorkspace then true
    else !(fileAccess e) && mkdirBeforeAccess rest

/-- Concrete fixtures used by the closed witness statements. -/
def demoErr : PyErr := ⟨"boom"⟩

def demoResp : Resp := ⟨"ok", []⟩

/-- An endpoint that always answers and leaves the filesystem unchanged. -/
def okApi : Api := fun s => Except.ok (demoResp, s)

/-- An endpoint whose calls always raise. -/
def errApi : Api := fun _ => Except.error demoErr

def demoFS : FS := ⟨true, ["a.pdf", "report.txt"]⟩

def mkdirFaults : OsFaults := ⟨some ⟨"mkdir EPERM"⟩, none, none, none⟩

/-! Helper lemmas about the embedding. -/

lemma noFaults_mkdirFault : noFaults.mkdirFault = none := rfl

lemma noFaults_globFault : noFaults.globFault = none := rfl

lemma noFaults_writeFault : noFaults.writeFault = none := rfl

lemma globList_workspace_if (fs : FS) (s : String) :
    globList (if fs.workspaceExists then fs else ⟨true, fs.files⟩) s = globList fs s := by
  cases h : fs.workspaceExists <;> simp [h, globList]

/-- With a working OS, the workspace prologue of workflows 2-4 only changes
which filesystem state the body runs on. -/
lemma withWorkspace_noFaults_result (fs0 : FS) (body : FS → WfRun) :
    (withWorkspace noFaults fs0 body).result
      = (body (if fs0.workspaceExists then fs0 else ⟨true, fs0.files⟩)).result := by
  unfold withWorkspace
  simp only [noFaults_mkdirFault]
  cases h : fs0.workspaceExists <;> simp [h]

lemma withWorkspace_noFaults_msgs (fs0 : FS) (body : FS → WfRun) :
    (withWorkspace noFaults fs0 body).msgs
      = (body (if fs0.workspaceExists then fs0 else ⟨true, fs0.files⟩)).msgs := by
  unfold withWorkspace
  simp only [noFaults_mkdirFault]
  cases h : fs0.workspaceExists <;> simp [h]

lemma workflow_1_noFaults_result (api : Api) (fs0 : FS) :
    (workflow_1_read_pdf api noFaults fs0).result
      = (workflow_1_body api noFaults
          (if fs0.workspaceExists then fs0 else ⟨true, fs0.files⟩)).result := by
  unfold workflow_1_read_pdf
  simp only [noFaults_mkdirFault]
  cases h : fs0.workspaceExists <;> simp [h]

lemma workflow_1_body_isOk (api : Api) (fs : FS) :
    ∃ b, (workflow_1_body api noFaults fs).result = Except.ok b := by
  unfold workflow_1_body
  simp only [noFaults_globFault]
  cases hg : globList fs ".pdf" with
  | nil => exact ⟨false, rfl⟩
  | cons p r =>
    cases ha : api fs with
    | error e => exact ⟨false, by simp⟩
    | ok pr => exact ⟨true, by simp⟩

lemma workflow_1_isOk (api : Api) (fs : FS) :
    ∃ b, (workflow_1_read_pdf api noFaults fs).result = Except.ok b := by
  rw [workflow_1_noFaults_result]
  exact workflow_1_body_isOk api _

lemma workflow_2_api_part_isOk (api : Api) (faults : OsFaults) (fs : FS)
    (ev : List Event) (ms : List Msg) :
    ∃ b, (workflow_2_api_part api faults fs ev ms).result = Except.ok b := by
  unfold workflow_2_api_part
  cases ha : api fs with
  | error e => exact ⟨false, by simp⟩
  | ok pr =>
    obtain ⟨resp, fs1⟩ := pr
    by_cases hm : "summary.txt" ∈ fs1.files
    · cases hs : faults.statFault with
      | some e => exact ⟨false, by simp [hm, hs]⟩
      | none => exact ⟨true, by simp [hm, hs]⟩
    · exact ⟨true, by simp [hm]⟩

lemma workflow_2_body_isOk (api : Api) (fs : FS) :
    ∃ b, (workflow_2_body api noFaults fs).result = Except.ok b := by
  unfold workflow_2_body
  simp only [noFaults_writeFault]
  by_cases hm : "sample.txt" ∈ fs.files
  · simpa [hm] using workflow_2_api_part_isOk api noFaults fs
      [Event.checkExists "sample.txt"] []
  · simpa [hm] using workflow_2_api_part_isOk api noFaults
      ⟨fs.workspaceExists, fs.files ++ ["sample.txt"]⟩
      [Event.checkExists "sample.txt", Event.writeFile "sample.txt"] [Msg.creatingSample]

lemma workflow_2_isOk (api : Api) (fs : FS) :
    ∃ b, (workflow_2_multi_step_processing api noFaults fs).result = Except.ok b := by
  unfold workflow_2_multi_step_processing
  rw [withWorkspace_noFaults_result]
  exact workflow_2_body_isOk api _

lemma workflow_3_body_isOk (api : Api) (fs : FS) :
    ∃ b, (workflow_3_body api fs).result = Except.ok b := by
  unfold workflow_3_body
  cases ha : api fs with
  | error e => exact ⟨false, by simp⟩
  | ok pr => exact ⟨true, by simp⟩

lemma workflow_3_isOk (api : Api) (fs : FS) :
    ∃ b, (workflow_3_list_and_process api noFaults fs).result = Except.ok b := by
  unfold workflow_3_list_and_process
  rw [withWorkspace_noFaults_result]
  exact workflow_3_body_isOk api _

lemma workflow_4_body_isOk (api : Api) (fs : FS) :
    ∃ b, (workflow_4_body api noFaults fs).result = Except.ok b := by
  unfold workflow_4_body
  simp only [noFaults_globFault]
  cases hg : globList fs ".txt" with
  | nil => exact ⟨false, rfl⟩
  | cons t r =>
    cases ha : api fs with
    | error e => exact ⟨false, by simp⟩
    | ok pr =>
      obtain ⟨resp, fs1⟩ := pr
      by_cases hm : stem t ++ "_converted.md" ∈ fs1.files
      · exact ⟨true, by simp [hm]⟩
      · exact ⟨true, by simp [hm]⟩

lemma workflow_4_isOk (api : Api) (fs : FS) :
    ∃ b, (workflow_4_document_conversion api noFaults fs).result = Except.ok b := by
  unfold workflow_4_document_conversion
  rw [withWorkspace_noFaults_result]
  exact workflow_4_body_isOk api _

/-- Master description of a `main` run whose connectivity check succeeds and
whose OS behaves normally: four results are recorded, in order, and the exit
code is 0 exactly when all four workflow booleans are true; when the
tool-discovery call raised, the run still printed the continuation notice. -/
lemma main_conn_ok_spec (apiConn apiTools api1 api2 api3 api4 : Api) (fs0 : FS)
    (rc : Resp) (fsC : FS) (h : apiConn fs0 = Except.ok (rc, fsC)) :
    ∃ b1 b2 b3 b4 : Bool,
      (main apiConn apiTools api1 api2 api3 api4
          noFaults noFaults noFaults noFaults fs0).results
        = [(wfName1, b1), (wfName2, b2), (wfName3, b3), (wfName4, b4)] ∧
      ((main apiConn apiTools api1 api2 api3 api4
          noFaults noFaults noFaults noFaults fs0).exitCode = 0
        ↔ (b1 && b2 && b3 && b4) = true) ∧
      (∀ e : PyErr, apiTools fsC = Except.error e →
        Msg.continuingAnyway ∈ (main apiConn apiTools api1 api2 api3 api4
          noFaults noFaults noFaults noFaults fs0).msgs) := by
  have hc : check_llamagate_connection apiConn fs0
      = ⟨true, fsC, [Event.apiCall], [Msg.connOk]⟩ := by
    unfold check_llamagate_connection
    rw [h]
  cases ht : apiTools fsC with
  | error e0 =>
    have hlt : list_available_tools apiTools fsC
        = ⟨false, fsC, [Event.apiCall], [Msg.toolsFailed e0]⟩ := by
      unfold list_available_tools
      rw [ht]
    obtain ⟨b1, hb1⟩ := workflow_1_isOk api1 fsC
    obtain ⟨b2, hb2⟩ := workflow_2_isOk api2 (workflow_1_read_pdf api1 noFaults fsC).fs
    obtain ⟨b3, hb3⟩ := workflow_3_isOk api3
      (workflow_2_multi_step_processing api2 noFaults
        (workflow_1_read_pdf api1 noFaults fsC).fs).fs
    obtain ⟨b4, hb4⟩ := workflow_4_isOk api4
      (workflow_3_list_and_process api3 noFaults
        (workflow_2_multi_step_processing api2 noFaults
          (workflow_1_read_pdf api1 noFaults fsC).fs).fs).fs
    refine ⟨b1, b2, b3, b4, ?_, ?_, ?_⟩
    · simp [main, hc, hlt, hb1, hb2, hb3, hb4]
    · simp only [main, hc, hlt, hb1, hb2, hb3, hb4]
      cases b1 <;> cases b2 <;> cases b3 <;> cases b4 <;> simp
    · intro e he
      simp [main, hc, hlt, hb1, hb2, hb3, hb4]
  | ok pr =>
    obtain ⟨rt, fsT⟩ := pr
    have hlt : list_available_tools apiTools fsC
        = ⟨true, fsT, [Event.apiCall], [Msg.toolsListing rt.content]⟩ := by
      unfold list_available_tools
      rw [ht]
    obtain ⟨b1, hb1⟩ := workflow_1_isOk api1 fsT
    obtain ⟨b2, hb2⟩ := workflow_2_isOk api2 (workflow_1_read_pdf api1 noFaults fsT).fs
    obtain ⟨b3, hb3⟩ := workflow_3_isOk api3
      (workflow_2_multi_step_processing api2 noFaults
        (workflow_1_read_pdf api1 noFaults fsT).fs).fs
    obtain ⟨b4, hb4⟩ := workflow_4_isOk api4
      (workflow_3_list_and_process api3 noFaults
        (workflow_2_multi_step_processing api2 noFaults
          (workflow_1_read_pdf api1 noFaults fsT).fs).fs).fs
    refine ⟨b1, b2, b3, b4, ?_, ?_, ?_⟩
    · simp [main, hc, hlt, hb1, hb2, hb3, hb4]
    · simp only [main, hc, hlt, hb1, hb2, hb3, hb4]
      cases b1 <;> cases b2 <;> cases b3 <;> cases b4 <;> simp
    · intro e he
      exact absurd he (by simp)

/-- With a working OS, an API call that raises makes workflow 1 return
`False` (the `except` clause at lines 129-131). -/
lemma workflow_1_body_err (e : PyErr) (fs : FS) :
    (workflow_1_body (fun _ => Except.error e) noFaults fs).result = Except.ok false := by
  unfold workflow_1_body
  simp only [noFaults_globFault]
  cases hg : globList fs ".pdf" <;> simp

lemma workflow_2_body_err (e : PyErr) (fs : FS) :
    (workflow_2_body (fun _ => Except.error e) noFaults fs).result = Except.ok false := by
  unfold workflow_2_body workflow_2_api_part
  simp only [noFaults_writeFault]
  by_cases hm : "sample.txt" ∈ fs.files <;> simp [hm]

lemma workflow_4_body_err (e : PyErr) (fs : FS) :
    (workflow_4_body (fun _ => Except.error e) noFaults fs).result = Except.ok false := by
  unfold workflow_4_body
  simp only [noFaults_globFault]
  cases hg : globList fs ".txt" <;> simp

/-- Run of the body of workflow 2 when the API call succeeds but leaves no
`summary.txt` behind: the mismatch warning is printed (and not the success
message) and the function still returns `True`. -/
lemma workflow_2_body_const_ok_missing (resp : Resp) (fs1 : FS) (fs : FS)
    (h : "summary.txt" ∉ fs1.files) :
    (workflow_2_body (fun _ => Except.ok (resp, fs1)) noFaults fs).msgs
        = (if "sample.txt" ∈ fs.files then [] else [Msg.creatingSample])
          ++ [Msg.processingResult resp.content, Msg.summaryMissing] ∧
    (workflow_2_body (fun _ => Except.ok (resp, fs1)) noFaults fs).result
        = Except.ok true := by
  unfold workflow_2_body workflow_2_api_part
  simp only [noFaults_writeFault]
  by_cases hm : "sample.txt" ∈ fs.files <;> simp [hm, h]

lemma mkdirBeforeAccess_prologue (l : List Event) :
    mkdirBeforeAccess (Event.checkDirExists :: Event.mkdirWorkspace :: l) = true := by
  simp [mkdirBeforeAccess, fileAccess]

/-- In workflows 2-4 run on a missing workspace, no file access precedes the
directory creation (also when `mkdir` itself raises: then no access at all
happens). -/
lemma withWorkspace_mkdirBeforeAccess (faults : OsFaults) (fs0 : FS) (body : FS → WfRun)
    (h : fs0.workspaceExists = false) :
    mkdirBeforeAccess (withWorkspace faults fs0 body).events = true := by
  unfold withWorkspace
  rw [h]
  cases hf : faults.mkdirFault <;> simp [mkdirBeforeAccess, fileAccess]

lemma workflow_1_mkdirBeforeAccess (api : Api) (faults : OsFaults) (fs0 : FS)
    (h : fs0.workspaceExists = false) :
    mkdirBeforeAccess (workflow_1_read_pdf api faults fs0).events = true := by
  unfold workflow_1_read_pdf
  rw [h]
  cases hf : faults.mkdirFault <;> simp [mkdirBeforeAccess, fileAccess]

/-! The claims. -/

/-- C1: when the connectivity check succeeds (so the four results are
recorded) and the OS behaves normally, the process exit code is 0 if and
only if every recorded workflow result is a success — for every combination
of the four workflow outcomes. -/
theorem C1_exit_zero_iff_all_pass (apiConn apiTools api1 api2 api3 api4 : Api)
    (fs0 : FS) (rc : Resp) (fsC : FS) (h : apiConn fs0 = Except.ok (rc, fsC)) :
    ((main apiConn apiTools api1 api2 api3 api4
        noFaults noFaults noFaults noFaults fs0).exitCode = 0
      ↔ (main apiConn apiTools api1 api2 api3 api4
        noFaults noFaults noFaults noFaults fs0).results.all (fun p => p.2) = true) := by
  obtain ⟨b1, b2, b3, b4, hres, hiff, -⟩ :=
    main_conn_ok_spec apiConn apiTools api1 api2 api3 api4 fs0 rc fsC h
  rw [hres, hiff]
  cases b1 <;> cases b2 <;> cases b3 <;> cases b4 <;> simp

theorem C1_exit_zero_iff_all_pass_witness :
    ((main okApi okApi okApi okApi okApi okApi
        noFaults noFaults noFaults noFaults demoFS).exitCode = 0
      ↔ (main okApi okApi okApi okApi okApi okApi
        noFaults noFaults noFaults noFaults demoFS).results.all (fun p => p.2) = true) :=
  C1_exit_zero_iff_all_pass okApi okApi okApi okApi okApi okApi demoFS demoResp demoFS rfl

/-- C2 counterexample: with the workspace directory absent and `mkdir`
raising an `OSError`, `workflow_1_read_pdf` does not return `False` — the
exception propagates out of the function (lines 89-93 are outside the
`try` block), contrary to the claim that any error raised during the
workflow's execution yields a recorded failure. -/
theorem C2_mkdir_error_propagates :
    (workflow_1_read_pdf okApi mkdirFaults ⟨false, []⟩).result
      = Except.error ⟨"mkdir EPERM"⟩ := rfl

/-- C2 amended: any error raised inside a workflow's `try` block (the API
call and the response handling) yields a recorded failure — with a working
OS, a raising API call makes each of the four workflow functions return
`False` rather than propagate.  Errors raised by the filesystem setup
operations outside the `try` blocks (`mkdir`, `glob`, the sample-file
write) do propagate out of the workflow function. -/
theorem C2_guarded_errors_recorded (e : PyErr) (fs1 fs2 fs3 fs4 : FS) :
    (workflow_1_read_pdf (fun _ => Except.error e) noFaults fs1).result
        = Except.ok false ∧
    (workflow_2_multi_step_processing (fun _ => Except.error e) noFaults fs2).result
        = Except.ok false ∧
    (workflow_3_list_and_process (fun _ => Except.error e) noFaults fs3).result
        = Except.ok false ∧
    (workflow_4_document_conversion (fun _ => Except.error e) noFaults fs4).result
        = Except.ok false := by
  refine ⟨?_, ?_, ?_, ?_⟩
  · rw [workflow_1_noFaults_result]
    exact workflow_1_body_err e _
  · unfold workflow_2_multi_step_processing
    rw [withWorkspace_noFaults_result]
    exact workflow_2_body_err e _
  · unfold workflow_3_list_and_process
    rw [withWorkspace_noFaults_result]
    unfold workflow_3_body
    simp
  · unfold workflow_4_document_conversion
    rw [withWorkspace_noFaults_result]
    exact workflow_4_body_err e _

/-- C3: when the API call of workflow 2 succeeds but `summary.txt` does not
exist afterwards, the success message is not printed, the mismatch warning
is printed, and the function still returns the API call's success value
(`True`). -/
theorem C3_summary_check (fs : FS) (resp : Resp) (fs1 : FS)
    (h : "summary.txt" ∉ fs1.files) :
    Msg.summaryCreated ∉ (workflow_2_multi_step_processing
        (fun _ => Except.ok (resp, fs1)) noFaults fs).msgs ∧
    Msg.summaryMissing ∈ (workflow_2_multi_step_processing
        (fun _ => Except.ok (resp, fs1)) noFaults fs).msgs ∧
    (workflow_2_multi_step_processing
        (fun _ => Except.ok (resp, fs1)) noFaults fs).result = Except.ok true := by
  unfold workflow_2_multi_step_processing
  rw [withWorkspace_noFaults_msgs, withWorkspace_noFaults_result]
  obtain ⟨hmsgs, hres⟩ := workflow_2_body_const_ok_missing resp fs1
    (if fs.workspaceExists then fs else ⟨true, fs.files⟩) h
  rw [hmsgs, hres]
  refine ⟨?_, ?_, rfl⟩ <;> split <;> simp

theorem C3_summary_check_witness :
    Msg.summaryCreated ∉ (workflow_2_multi_step_processing
        (fun _ => Except.ok (demoResp, (⟨true, []⟩ : FS))) noFaults ⟨true, []⟩).msgs ∧
    Msg.summaryMissing ∈ (workflow_2_multi_step_processing
        (fun _ => Except.ok (demoResp, (⟨true, []⟩ : FS))) noFaults ⟨true, []⟩).msgs ∧
    (workflow_2_multi_step_processing
        (fun _ => Except.ok (demoResp, (⟨true, []⟩ : FS))) noFaults ⟨true, []⟩).result
      = Except.ok true :=
  C3_summary_check ⟨true, []⟩ demoResp ⟨true, []⟩ (by decide)

/-- C4: with no PDF file in the workspace (and a working OS), workflow 1
returns failure without raising and performs no API call. -/
theorem C4_no_pdf_returns_false_no_call (api : Api) (fs : FS)
    (h : globList fs ".pdf" = []) :
    (workflow_1_read_pdf api noFaults fs).result = Except.ok false ∧
    Event.apiCall ∉ (workflow_1_read_pdf api noFaults fs).events := by
  cases hw : fs.workspaceExists with
  | true =>
    simp [workflow_1_read_pdf, workflow_1_body, noFaults_mkdirFault, noFaults_globFault,
      hw, h]
  | false =>
    have h1 : globList ⟨true, fs.files⟩ ".pdf" = [] := by
      simpa [globList] using h
    simp [workflow_1_read_pdf, workflow_1_body, noFaults_mkdirFault, noFaults_globFault,
      hw, h1]

theorem C4_no_pdf_returns_false_no_call_witness :
    (workflow_1_read_pdf okApi noFaults ⟨true, ["report.txt"]⟩).result = Except.ok false ∧
    Event.apiCall ∉ (workflow_1_read_pdf okApi noFaults ⟨true, ["report.txt"]⟩).events :=
  C4_no_pdf_returns_false_no_call okApi ⟨true, ["report.txt"]⟩ (by decide)

/-- C5: with the workspace containing exactly the file `report.txt`,
workflow 4 derives the conversion target `report_converted.md` (the stem of
the source plus `_converted.md`) and checks for it in the workspace. -/
theorem C5_conversion_target (resp : Resp) (fs1 : FS) :
    Event.checkExists "report_converted.md"
      ∈ (workflow_4_document_conversion (fun _ => Except.ok (resp, fs1)) noFaults
          ⟨true, ["report.txt"]⟩).events ∧
    stem "report.txt" = "report" := by
  constructor
  · have hg : globList ⟨true, ["report.txt"]⟩ ".txt" = ["report.txt"] := by decide
    have hst : stem "report.txt" ++ "_converted.md" = "report_converted.md" := by decide
    unfold workflow_4_document_conversion withWorkspace workflow_4_body
    simp only [noFaults_mkdirFault, noFaults_globFault, hg, hst]
    split <;> by_cases hm : "report_converted.md" ∈ fs1.files <;> simp [hm]
  · decide

/-- C6: for every workflow function, when the workspace directory does not
exist at workflow start, the directory is created before any file access
(read, write, stat, existence check or glob) inside it — scanning the event
trace, no file access occurs before the `mkdir`. -/
theorem C6_workspace_created_before_access (api1 api2 api3 api4 : Api)
    (f1 f2 f3 f4 : OsFaults) (fs1 fs2 fs3 fs4 : FS)
    (h1 : fs1.workspaceExists = false) (h2 : fs2.workspaceExists = false)
    (h3 : fs3.workspaceExists = false) (h4 : fs4.workspaceExists = false) :
    mkdirBeforeAccess (workflow_1_read_pdf api1 f1 fs1).events = true ∧
    mkdirBeforeAccess (workflow_2_multi_step_processing api2 f2 fs2).events = true ∧
    mkdirBeforeAccess (workflow_3_list_and_process api3 f3 fs3).events = true ∧
    mkdirBeforeAccess (workflow_4_document_conversion api4 f4 fs4).events = true :=
  ⟨workflow_1_mkdirBeforeAccess api1 f1 fs1 h1,
   withWorkspace_mkdirBeforeAccess f2 fs2 (workflow_2_body api2 f2) h2,
   withWorkspace_mkdirBeforeAccess f3 fs3 (workflow_3_body api3) h3,
   withWorkspace_mkdirBeforeAccess f4 fs4 (workflow_4_body api4 f4) h4⟩

theorem C6_workspace_created_before_access_witness :
    mkdirBeforeAccess (workflow_1_read_pdf okApi noFaults ⟨false, []⟩).events = true ∧
    mkdirBeforeAccess (workflow_2_multi_step_processing okApi noFaults ⟨false, []⟩).events
      = true ∧
    mkdirBeforeAccess (workflow_3_list_and_process okApi noFaults ⟨false, []⟩).events
      = true ∧
    mkdirBeforeAccess (workflow_4_document_conversion okApi noFaults ⟨false, []⟩).events
      = true :=
  C6_workspace_created_before_access okApi okApi okApi okApi
    noFaults noFaults noFaults noFaults
    ⟨false, []⟩ ⟨false, []⟩ ⟨false, []⟩ ⟨false, []⟩ rfl rfl rfl rfl

/-- C7: a failing connectivity check is fatal — the process exits with code
1, no workflow result is recorded, and the only event of the whole run is
the connection attempt itself (no tool-discovery query, no workflow). -/
theorem C7_connectivity_failure_fatal (apiConn apiTools api1 api2 api3 api4 : Api)
    (f1 f2 f3 f4 : OsFaults) (fs0 : FS) (e : PyErr)
    (h : apiConn fs0 = Except.error e) :
    (main apiConn apiTools api1 api2 api3 api4 f1 f2 f3 f4 fs0).exitCode = 1 ∧
    (main apiConn apiTools api1 api2 api3 api4 f1 f2 f3 f4 fs0).results = [] ∧
    (main apiConn apiTools api1 api2 api3 api4 f1 f2 f3 f4 fs0).events
      = [Event.apiCall] := by
  have hc : check_llamagate_connection apiConn fs0
      = ⟨false, fs0, [Event.apiCall], [Msg.connFailed e]⟩ := by
    unfold check_llamagate_connection
    rw [h]
  refine ⟨?_, ?_, ?_⟩ <;> simp [main, hc]

theorem C7_connectivity_failure_fatal_witness :
    (main errApi okApi okApi okApi okApi okApi
        noFaults noFaults noFaults noFaults demoFS).exitCode = 1 ∧
    (main errApi okApi okApi okApi okApi okApi
        noFaults noFaults noFaults noFaults demoFS).results = [] ∧
    (main errApi okApi okApi okApi okApi okApi
        noFaults noFaults noFaults noFaults demoFS).events = [Event.apiCall] :=
  C7_connectivity_failure_fatal errApi okApi okApi okApi okApi okApi
    noFaults noFaults noFaults noFaults demoFS demoErr rfl

/-- C8: a failing tool-discovery query is non-fatal — the continuation
notice is printed and all four workflows still run, recording their four
results in order. -/
theorem C8_tools_failure_nonfatal (apiConn apiTools api1 api2 api3 api4 : Api)
    (fs0 : FS) (rc : Resp) (fsC : FS) (e : PyErr)
    (h : apiConn fs0 = Except.ok (rc, fsC)) (ht : apiTools fsC = Except.error e) :
    (main apiConn apiTools api1 api2 api3 api4
        noFaults noFaults noFaults noFaults fs0).results.map Prod.fst
      = [wfName1, wfName2, wfName3, wfName4] ∧
    Msg.continuingAnyway ∈ (main apiConn apiTools api1 api2 api3 api4
        noFaults noFaults noFaults noFaults fs0).msgs := by
  obtain ⟨b1, b2, b3, b4, hres, -, hca⟩ :=
    main_conn_ok_spec apiConn apiTools api1 api2 api3 api4 fs0 rc fsC h
  exact ⟨by rw [hres]; rfl, hca e ht⟩

theorem C8_tools_failure_nonfatal_witness :
    (main okApi errApi okApi okApi okApi okApi
        noFaults noFaults noFaults noFaults demoFS).results.map Prod.fst
      = [wfName1, wfName2, wfName3, wfName4] ∧
    Msg.continuingAnyway ∈ (main okApi errApi okApi okApi okApi okApi
        noFaults noFaults noFaults noFaults demoFS).msgs :=
  C8_tools_failure_nonfatal okApi errApi okApi okApi okApi okApi
    demoFS demoResp demoFS demoErr rfl rfl

/-- C9: the tool-discovery outcome is not recorded in the results list and
never affects the exit code — even when tool discovery failed, exactly four
results (the workflows') are recorded and the exit code is 0 exactly when
they are all successes. -/
theorem C9_tools_result_not_recorded (apiConn apiTools api1 api2 api3 api4 : Api)
    (fs0 : FS) (rc : Resp) (fsC : FS) (e : PyErr)
    (h : apiConn fs0 = Except.ok (rc, fsC)) (ht : apiTools fsC = Except.error e) :
    (main apiConn apiTools api1 api2 api3 api4
        noFaults noFaults noFaults noFaults fs0).results.length = 4 ∧
    ((main apiConn apiTools api1 api2 api3 api4
        noFaults noFaults noFaults noFaults fs0).exitCode = 0
      ↔ (main apiConn apiTools api1 api2 api3 api4
        noFaults noFaults noFaults noFaults fs0).results.all (fun p => p.2) = true) := by
  obtain ⟨b1, b2, b3, b4, hres, hiff, -⟩ :=
    main_conn_ok_spec apiConn apiTools api1 api2 api3 api4 fs0 rc fsC h
  refine ⟨by rw [hres]; rfl, ?_⟩
  rw [hres, hiff]
  cases b1 <;> cases b2 <;> cases b3 <;> cases b4 <;> simp

theorem C9_tools_result_not_recorded_witness :
    (main okApi errApi okApi okApi okApi okApi
        noFaults noFaults noFaults noFaults demoFS).results.length = 4 ∧
    ((main okApi errApi okApi okApi okApi okApi
        noFaults noFaults noFaults noFaults demoFS).exitCode = 0
      ↔ (main okApi errApi okApi okApi okApi okApi
        noFaults noFaults noFaults noFaults demoFS).results.all (fun p => p.2) = true) :=
  C9_tools_result_not_recorded okApi errApi okApi okApi okApi okApi
    demoFS demoResp demoFS demoErr rfl rfl

/-- C10: whenever its API call completes without raising (and the OS works
normally), workflow 4 returns `True`, regardless of whether the target
converted file exists afterwards — the post-call existence check only
selects the printed message. -/
theorem C10_wf4_success_ignores_target (resp : Resp) (fs1 : FS) (fs : FS)
    (h : globList fs ".txt" ≠ []) :
    (workflow_4_document_conversion (fun _ => Except.ok (resp, fs1)) noFaults fs).result
      = Except.ok true := by
  unfold workflow_4_document_conversion
  rw [withWorkspace_noFaults_result]
  unfold workflow_4_body
  simp only [noFaults_globFault, globList_workspace_if]
  cases hg : globList fs ".txt" with
  | nil => exact absurd hg h
  | cons t r => by_cases hm : stem t ++ "_converted.md" ∈ fs1.files <;> simp [hm]

theorem C10_wf4_success_ignores_target_witness :
    (workflow_4_document_conversion (fun _ => Except.ok (demoResp, (⟨true, []⟩ : FS)))
        noFaults ⟨true, ["report.txt"]⟩).result = Except.ok true :=
  C10_wf4_success_ignores_target demoResp ⟨true, []⟩ ⟨true, ["report.txt"]⟩ (by decide)

end Demo
